import Mathlib

/-!
Verification of the SCLM conversational agent (Semantic Core Language Model).

This file gives a shallow embedding of the core pipeline of the repository:
the knowledge fact stores (sclm_phase_9_knowledge.py and the engine inside
sclm_phase_10_interactive_graph.py), the context resolver, the nuance and tone
enrichers, the response engines, and the dialogue orchestrator of
sclm_final_interactive.py.  Python dictionaries holding the core thought are
modelled by a structure with optional fields; the sqlite table is modelled by a
list of records in insertion (rowid) order; wall-clock timestamps are modelled
by a natural number supplied by the caller.
-/

namespace SCLM

/-- Model of Python str.lower, character by character (the repository only
lowercases ASCII identifiers such as subjects and relationship names). -/
def lower (s : String) : String := ⟨s.data.map Char.toLower⟩

/-- Python substring containment on character lists: containsSub s sub is
true when sub occurs contiguously inside s (the semantics of the Python
expression sub in s for strings). -/
def containsSub : List Char → List Char → Bool
  | [], sub => sub.isEmpty
  | c :: t, sub => List.isPrefixOf sub (c :: t) || containsSub t sub

/-- Substring containment on strings. -/
def strContains (s sub : String) : Bool := containsSub s.data sub.data

/-- Python truthiness of an optional string: None and the empty string are
falsy, every other string is truthy. -/
def truthyOpt : Option String → Bool
  | some s => s != ""
  | none => false

/-- A core thought: the dictionary produced by the semantic parser and passed
through the pipeline.  The source key named attribute is modelled by the
field attr, and mood_connotation by mood_conn; absent noun phrases are the
Python value None, modelled by Option.none. -/
structure Thought where
  input_sentence : String
  mood : String
  learning_fact : Option (String × String × String)
  query_fact : Option (String × String)
  action : Option String
  agent : Option String
  object : Option String
  destination : Option String
  attr : Option String
  urgency : String
  mood_conn : String
  tone : String
  deriving DecidableEq

/-- A row of the knowledge table: columns subject, relationship, fact,
is_immutable, source, timestamp. -/
structure Record where
  subject : String
  relationship : String
  fact : String
  is_immutable : Bool
  source : String
  timestamp : Nat
  deriving DecidableEq

/-- The WHERE clause used by both engines: subject = ? AND relationship = ?,
with the two parameters already lowercased by the caller. -/
def keyMatches (s r : String) (rec : Record) : Bool :=
  rec.subject == s && rec.relationship == r

namespace Phase9

/-- sclm_phase_9_knowledge.py: the relationships that are inherently
singular. -/
def singular_relationships : List String := ["shape", "capital"]

/-- The immutable constants inserted by _initialize_database when the table
is empty (subjects and relationships lowercased, facts verbatim). -/
def initialDB : List Record :=
  [{ subject := "ball", relationship := "shape", fact := "round",
     is_immutable := true, source := "System_Constant", timestamp := 0 },
   { subject := "ball", relationship := "can_be_action", fact := "thrown",
     is_immutable := true, source := "System_Constant", timestamp := 0 },
   { subject := "ball", relationship := "can_be_action", fact := "caught",
     is_immutable := true, source := "System_Constant", timestamp := 0 },
   { subject := "car", relationship := "has_part", fact := "engine",
     is_immutable := true, source := "System_Constant", timestamp := 0 },
   { subject := "car", relationship := "has_part", fact := "wheel",
     is_immutable := true, source := "System_Constant", timestamp := 0 },
   { subject := "france", relationship := "capital", fact := "Paris",
     is_immutable := true, source := "System_Constant", timestamp := 0 }]

/-- KnowledgeGraphEngine.query_facts: SELECT fact FROM knowledge WHERE
subject = ? AND relationship = ? with both inputs lowercased; rows come back
in insertion order. -/
def query_facts (db : List Record) (subject relationship : String) : List String :=
  (db.filter (keyMatches (lower subject) (lower relationship))).map Record.fact

/-- KnowledgeGraphEngine.learn_fact of sclm_phase_9_knowledge.py.  Returns the
outcome string together with the new table contents.  The conflict branch
fires when the relationship is singular and the first existing row is
immutable; the duplicate branch fires when any existing row has the same fact
up to case; otherwise a new row is inserted (is_immutable defaults to
false). -/
def learn_fact (db : List Record) (subject relationship fact source : String)
    (now : Nat) : String × List Record :=
  let subj_lower := lower subject
  let rel_lower := lower relationship
  let fact_lower := lower fact
  let existing_facts := db.filter (keyMatches subj_lower rel_lower)
  let inserted : String × List Record :=
    ("LEARNED_SUCCESSFULLY",
     db ++ [{ subject := subj_lower, relationship := rel_lower, fact := fact,
              is_immutable := false, source := source, timestamp := now }])
  match existing_facts with
  | [] => inserted
  | first :: _ =>
    if singular_relationships.contains rel_lower && first.is_immutable then
      ("CONFLICT_WITH_CONSTANT", db)
    else if existing_facts.any (fun r => fact_lower == lower r.fact) then
      ("ALREADY_KNOWN", db)
    else inserted

end Phase9

namespace Phase10

/-- The singular relationship list of the engine in
sclm_phase_10_interactive_graph.py (never consulted by its learn_fact, which
treats every relationship as singular through the UNIQUE key constraint). -/
def singular_relationships : List String := ["shape", "capital", "state"]

/-- The constants inserted by this variant's _initialize_database. -/
def initialDB : List Record :=
  [{ subject := "ball", relationship := "shape", fact := "round",
     is_immutable := true, source := "System_Constant", timestamp := 0 },
   { subject := "france", relationship := "capital", fact := "Paris",
     is_immutable := true, source := "System_Constant", timestamp := 0 }]

/-- query_facts of the phase-10 engine (same SELECT as phase 9). -/
def query_facts (db : List Record) (subject relationship : String) : List String :=
  (db.filter (keyMatches (lower subject) (lower relationship))).map Record.fact

/-- learn_fact of the phase-10 engine.  The table carries
UNIQUE(subject, relationship); any existing immutable row yields a conflict,
otherwise INSERT OR REPLACE removes the old row for the key and appends the
new one at the end (fresh rowid), and the outcome reports whether a row
existed before. -/
def learn_fact (db : List Record) (subject relationship fact source : String)
    (now : Nat) : String × List Record :=
  let s_lower := lower subject
  let r_lower := lower relationship
  let matching := db.filter (keyMatches s_lower r_lower)
  let newRec : Record :=
    { subject := s_lower, relationship := r_lower, fact := fact,
      is_immutable := false, source := source, timestamp := now }
  match matching with
  | first :: _ =>
    if first.is_immutable then
      ("CONFLICT_WITH_CONSTANT", db)
    else
      ("UPDATED_BELIEF", (db.filter (fun rec => !(keyMatches s_lower r_lower rec))) ++ [newRec])
  | [] => ("LEARNED_SUCCESSFULLY", db ++ [newRec])

/-- ResponseEngine._format_list: join with commas, final item preceded by
the word and; a single item is rendered alone; the empty list renders as the
empty string. -/
def format_list (items : List String) : String :=
  match items with
  | [] => ""
  | [x] => x
  | _ => String.intercalate ", " items.dropLast ++ ", and " ++ items.getLastD ""

/-- Rules 3 and 4 of the phase-10 ResponseEngine decision list: the
observational reply on a truthy attribute, else the default acknowledgment.
Python renders the agent via an f-string, so an agent of None prints as the
text None (the .get default of It never applies: the key is always
present). -/
def response_rest (t : Thought) (kb : List Record) : String × List Record :=
  if truthyOpt t.attr then
    ((match t.agent with | some a => a | none => "None") ++
      " certainly seems to be " ++ (match t.attr with | some a => a | none => "None") ++
      ". That's an interesting observation.", kb)
  else
    ("I understand. Thank you for telling me.", kb)

/-- Rule 2 of the phase-10 ResponseEngine: factual questions. -/
def response_query (t : Thought) (kb : List Record) : String × List Record :=
  match t.query_fact with
  | some (subject, rel) =>
    if t.mood == "interrogative_fact" then
      let answers := query_facts kb subject rel
      if !answers.isEmpty then
        ("Based on what I know, the " ++ rel ++ " of " ++ subject ++ " " ++
          (if answers.length == 1 then "is" else "are") ++ ": " ++
          format_list answers ++ ".", kb)
      else
        ("I don't have any information about the " ++ rel ++ " of " ++ subject ++ ".", kb)
    else response_rest t kb
  | none => response_rest t kb

/-- ResponseEngine.generate_response of sclm_phase_10_interactive_graph.py.
Rule 1 learns the fact and renders an outcome-specific message; on a conflict
it queries the store for the existing value(s) and includes them through
format_list.  When no rule of the chain fires, control falls through to the
later rules with the store already mutated. -/
def generate_response (t : Thought) (kb : List Record) (now : Nat) : String × List Record :=
  match t.learning_fact with
  | some (subject, rel, fact) =>
    if t.mood == "declarative_fact" then
      let res := learn_fact kb subject rel fact "user" now
      if res.1 == "LEARNED_SUCCESSFULLY" then
        ("Okay, I've learned that the " ++ rel ++ " of " ++ subject ++ " is " ++ fact ++ ".", res.2)
      else if res.1 == "UPDATED_BELIEF" then
        ("Okay, I've updated my belief. I now understand that the " ++ rel ++ " of " ++
          subject ++ " is " ++ fact ++ ".", res.2)
      else if res.1 == "CONFLICT_WITH_CONSTANT" then
        ("That's interesting, but my understanding is that the " ++ rel ++ " of " ++
          subject ++ " is " ++ format_list (query_facts res.2 subject rel) ++ ".", res.2)
      else response_query t res.2
    else response_query t kb
  | none => response_query t kb

end Phase10

namespace FinalInteractive

/-- Python repr of a list of strings, as rendered by an f-string: this is how
the factual-question reply of sclm_final_interactive.py would display the
list returned by the store. -/
def pyReprList (xs : List String) : String :=
  "[" ++ String.intercalate ", " (xs.map (fun s => "'" ++ s ++ "'")) ++ "]"

/-- Rules 3 to 6 of the final ResponseEngine decision list: sarcasm
acknowledgment, the reply to non-factual questions, the observational reply
on a truthy attribute, and the default acknowledgment.  As in the phase-10
engine an agent of None renders as the text None: the .get default of It
never applies because the parser always populates the key. -/
def response_rest (t : Thought) (kb : List Record) : String × List Record :=
  if t.tone == "sarcastic" then
    ("Oh no, that sounds frustrating. I hope everything is okay!", kb)
  else if t.mood == "interrogative" then
    ("That's a good question. I'm not sure what the answer is.", kb)
  else if truthyOpt t.attr then
    ((match t.agent with | some a => a | none => "None") ++
      " certainly seems to be " ++ (match t.attr with | some a => a | none => "None") ++
      ". That's an interesting observation.", kb)
  else
    ("I understand. Thank you for telling me.", kb)

/-- Rule 2 of the final ResponseEngine: factual questions.  The source calls
a method named query_fact that the imported phase-9 engine does not define
(its method is query_facts); the evident intent, modelled here, is the
phase-9 query, whose list result the f-string renders via repr and whose
truthiness guards the branch. -/
def response_query (t : Thought) (kb : List Record) : String × List Record :=
  match t.query_fact with
  | some (subject, relationship) =>
    if t.mood == "interrogative_fact" then
      let answer := Phase9.query_facts kb subject relationship
      if !answer.isEmpty then
        ("Based on what I know, the " ++ relationship ++ " of " ++ subject ++
          " is " ++ pyReprList answer ++ ".", kb)
      else
        ("I'm sorry, I don't have any information about the " ++ relationship ++
          " of " ++ subject ++ ".", kb)
    else response_rest t kb
  | none => response_rest t kb

/-- ResponseEngine.generate_response of sclm_final_interactive.py.  Rule 1
calls the phase-9 learn_fact and then branches on the truthiness of the
returned outcome string: success is the raw outcome, truthy exactly when it
is non-empty. -/
def generate_response (t : Thought) (kb : List Record) (now : Nat) : String × List Record :=
  match t.learning_fact with
  | some (subject, relationship, fact) =>
    if t.mood == "declarative_fact" then
      let res := Phase9.learn_fact kb subject relationship fact "user" now
      if res.1 == "" then
        ("I had trouble remembering that. Could you try phrasing it differently?", res.2)
      else
        ("Okay, I've learned that the " ++ relationship ++ " of " ++ subject ++
          " is " ++ fact ++ ".", res.2)
    else response_query t kb
  | none => response_query t kb

end FinalInteractive

/-- NuanceEngine.verb_connotations of sclm_phase_4_nuance.py: each verb maps
to its urgency and mood connotation. -/
def verb_conn : List (String × String × String) :=
  [("race", "high", "hurried"), ("rush", "high", "stressed"),
   ("hurry", "high", "anxious"), ("walk", "low", "casual"),
   ("stroll", "low", "leisurely"), ("wander", "low", "aimless"),
   ("chase", "medium", "aggressive"), ("write", "neutral", "creative"),
   ("eat", "low", "neutral")]

/-- NuanceEngine.analyze_thought: look the action verb up in the table and,
when found, overwrite urgency and mood connotation; unknown or absent verbs
leave the thought untouched. -/
def nuance_analyze (t : Thought) : Thought :=
  match t.action with
  | some a =>
    match verb_conn.find? (fun e => e.1 == a) with
    | some e => { t with urgency := e.2.1, mood_conn := e.2.2 }
    | none => t
  | none => t

/-- ToneEngine.sarcastic_positives of sclm_phase_7_tone.py. -/
def sarcastic_positives : List String :=
  ["great", "perfect", "fantastic", "wonderful", "lovely"]

/-- ToneEngine.negative_context_verbs of sclm_phase_7_tone.py. -/
def negative_context_verbs : List String :=
  ["spill", "break", "lose", "forget", "drop"]

/-- ToneEngine.analyze_thought: default the tone to neutral, then flip it to
sarcastic when the lowercased input sentence contains one of the positive
words as a substring and the action verb is in the negative-context set (a
None action is never a member). -/
def tone_analyze (t : Thought) : Thought :=
  let t1 : Thought := { t with tone := "neutral" }
  let sentence := lower t1.input_sentence
  let has_positive_word := sarcastic_positives.any (fun w => strContains sentence w)
  let has_negative_context :=
    match t1.action with
    | some a => negative_context_verbs.contains a
    | none => false
  if has_positive_word && has_negative_context then { t1 with tone := "sarcastic" } else t1

/-- The Python guard: the agent is a string equal, lowercased, to the
pronoun it (a None agent fails the isinstance check). -/
def is_agent_it (current : Thought) : Bool :=
  match current.agent with
  | some a => lower a == "it"
  | none => false

/-- DialogueManager._resolve_context, identical in sclm_final_interactive.py
and sclm_interactive_chat.py: when the agent is the pronoun it (case
insensitively) and the history is non-empty, pick the last entry's object if
truthy, else its agent, and substitute it when that antecedent is itself
truthy; otherwise return the thought unchanged. -/
def resolve_context (history : List Thought) (current : Thought) : Thought :=
  if is_agent_it current then
    match history.getLast? with
    | some last_thought =>
      let antecedent :=
        if truthyOpt last_thought.object then last_thought.object else last_thought.agent
      if truthyOpt antecedent then { current with agent := antecedent } else current
    | none => current
  else current

/-- The state owned by the dialogue orchestrator of sclm_final_interactive.py:
the ordered conversation history and the knowledge table. -/
structure DMState where
  history : List Thought
  kb : List Record
  deriving DecidableEq

/-- DialogueManager.handle_message of sclm_final_interactive.py.  The external
parser is a parameter (it is out of core scope), and the response engine is a
parameter that may fail with a store error, reflecting that its store calls
can raise and that the method body contains no exception handling: the
history append precedes the response-engine call in the source, so a failing
response stage propagates its error after the history has already grown. -/
def handle_message (parse : String → Thought)
    (respond : Thought → List Record → Except String (String × List Record))
    (st : DMState) (msg : String) : Except String String × DMState :=
  let parsed_thought := parse msg
  let contextual_thought := resolve_context st.history parsed_thought
  let nuanced_thought := nuance_analyze contextual_thought
  let final_thought := tone_analyze nuanced_thought
  let history2 := st.history ++ [final_thought]
  match respond final_thought st.kb with
  | Except.ok (r, kb2) => (Except.ok r, { history := history2, kb := kb2 })
  | Except.error e => (Except.error e, { history := history2, kb := st.kb })

/-! Concrete inputs used by counterexamples and witnesses. -/

/-- The thought produced for a sentence such as "the shape of the ball is
square": a declarative fact targeting the seeded immutable constant. -/
def tBallSquare : Thought :=
  { input_sentence := "the shape of the ball is square", mood := "declarative_fact",
    learning_fact := some ("ball", "shape", "square"), query_fact := none,
    action := none, agent := none, object := none, destination := none, attr := none,
    urgency := "neutral", mood_conn := "neutral", tone := "neutral" }

/-- The first sarcasm example of the specification. -/
def tGreatDrop : Thought :=
  { input_sentence := "That's just great, I dropped it.", mood := "indicative",
    learning_fact := none, query_fact := none,
    action := some "drop", agent := some "I", object := some "it", destination := none,
    attr := none, urgency := "neutral", mood_conn := "neutral", tone := "neutral" }

/-- The second sarcasm example of the specification: a positive word with a
non-negative action. -/
def tGreatWin : Thought :=
  { input_sentence := "That's just great, I won the race.", mood := "indicative",
    learning_fact := none, query_fact := none,
    action := some "win", agent := some "I", object := some "the race", destination := none,
    attr := none, urgency := "neutral", mood_conn := "neutral", tone := "neutral" }

/-- A current-turn thought whose agent is the pronoun It. -/
def tItFast : Thought :=
  { input_sentence := "it is fast", mood := "indicative",
    learning_fact := none, query_fact := none,
    action := some "be", agent := some "It", object := none, destination := none,
    attr := some "fast", urgency := "neutral", mood_conn := "neutral", tone := "neutral" }

/-- A previous-turn thought with a truthy object, the antecedent. -/
def tThrewBall : Thought :=
  { input_sentence := "I threw the ball", mood := "indicative",
    learning_fact := none, query_fact := none,
    action := some "throw", agent := some "I", object := some "the ball", destination := none,
    attr := none, urgency := "neutral", mood_conn := "neutral", tone := "neutral" }

/-- A plain indicative thought with no factual payload. -/
def tHello : Thought :=
  { input_sentence := "hello there", mood := "indicative",
    learning_fact := none, query_fact := none,
    action := some "be", agent := some "there", object := none, destination := none,
    attr := none, urgency := "neutral", mood_conn := "neutral", tone := "neutral" }

/-- A parser stub for orchestrator runs: every message parses to tHello. -/
def parseHello : String → Thought := fun _ => tHello

/-- A response stage that fails with a store error, the StoreUnavailable
failure mode of the specification. -/
def respondFail : Thought → List Record → Except String (String × List Record) :=
  fun _ _ => Except.error "StoreUnavailable"

/-! Helper lemmas shared by the claim theorems. -/

/-- Filtering by a predicate after keeping only its complement yields
nothing. -/
theorem filter_not_filter (p : Record → Bool) (l : List Record) :
    (l.filter (fun a => !(p a))).filter p = [] := by
  induction l with
  | nil => rfl
  | cons x xs ih =>
    by_cases hx : p x
    · simp [List.filter, hx, ih]
    · simp only [Bool.not_eq_true] at hx
      simp [List.filter, hx, ih]

/-- The phase-9 learn_fact either reports a conflict or a duplicate, leaving
the table unchanged, or inserts the new row at the end. -/
theorem learn9_result_spec (db : List Record) (s r f src : String) (now : Nat) :
    Phase9.learn_fact db s r f src now = ("CONFLICT_WITH_CONSTANT", db) ∨
    Phase9.learn_fact db s r f src now = ("ALREADY_KNOWN", db) ∨
    Phase9.learn_fact db s r f src now =
      ("LEARNED_SUCCESSFULLY",
        db ++ [{ subject := lower s, relationship := lower r, fact := f,
                 is_immutable := false, source := src, timestamp := now }]) := by
  simp only [Phase9.learn_fact]
  cases h : db.filter (keyMatches (lower s) (lower r)) with
  | nil => simp [h]
  | cons first rest =>
    simp only [h]
    split
    · simp
    · split
      · simp
      · simp

/-- The phase-9 learn_fact only ever returns one of its three outcome
strings. -/
theorem learn9_outcome_cases (db : List Record) (s r f src : String) (now : Nat) :
    (Phase9.learn_fact db s r f src now).1 = "CONFLICT_WITH_CONSTANT" ∨
    (Phase9.learn_fact db s r f src now).1 = "ALREADY_KNOWN" ∨
    (Phase9.learn_fact db s r f src now).1 = "LEARNED_SUCCESSFULLY" := by
  rcases learn9_result_spec db s r f src now with h | h | h <;> rw [h]
  · exact Or.inl rfl
  · exact Or.inr (Or.inl rfl)
  · exact Or.inr (Or.inr rfl)

/-- Phase-9 step lemma: with no existing record for the key, learn_fact
inserts a lowercased-key row carrying the fact verbatim. -/
theorem learn9_eq_of_no_existing (db : List Record) (s r f src : String) (now : Nat)
    (h : db.filter (keyMatches (lower s) (lower r)) = []) :
    Phase9.learn_fact db s r f src now =
      ("LEARNED_SUCCESSFULLY",
        db ++ [{ subject := lower s, relationship := lower r, fact := f,
                 is_immutable := false, source := src, timestamp := now }]) := by
  simp only [Phase9.learn_fact, h]

/-- Phase-9 step lemma: with exactly one mutable existing record for the key
holding a case-distinct fact, learn_fact inserts a further row. -/
theorem learn9_eq_of_single_mutable_new (db : List Record) (s r f src : String)
    (now : Nat) (rec : Record)
    (h : db.filter (keyMatches (lower s) (lower r)) = [rec])
    (hmut : rec.is_immutable = false)
    (hdiff : lower f ≠ lower rec.fact) :
    Phase9.learn_fact db s r f src now =
      ("LEARNED_SUCCESSFULLY",
        db ++ [{ subject := lower s, relationship := lower r, fact := f,
                 is_immutable := false, source := src, timestamp := now }]) := by
  simp only [Phase9.learn_fact, h]
  simp [hmut, hdiff]

/-- Phase-9 step lemma: with exactly one mutable existing record for the key
holding the same fact up to case, learn_fact reports the duplicate and
leaves the table unchanged. -/
theorem learn9_already_known_of_match (db : List Record) (s r f src : String)
    (now : Nat) (rec : Record)
    (h : db.filter (keyMatches (lower s) (lower r)) = [rec])
    (hmut : rec.is_immutable = false)
    (hsame : lower f = lower rec.fact) :
    Phase9.learn_fact db s r f src now = ("ALREADY_KNOWN", db) := by
  simp only [Phase9.learn_fact, h]
  simp [hmut, hsame]

/-! Claim theorems. -/

/-- C1 counterexample: in the phase-9 store, when a mutable record exists for
the singular key (germany, capital), learning a different fact does not
replace it and does not return an updated outcome: a second record is
inserted (the key is no longer unique, the query returns both facts) and the
call returns LEARNED_SUCCESSFULLY. -/
theorem phase9_singular_mutable_not_updated :
    Phase9.singular_relationships.contains "capital" = true ∧
    (Phase9.learn_fact [] "germany" "capital" "Berlin" "user" 0).1 = "LEARNED_SUCCESSFULLY" ∧
    (Phase9.learn_fact (Phase9.learn_fact [] "germany" "capital" "Berlin" "user" 0).2
        "germany" "capital" "Bonn" "user" 1).1 = "LEARNED_SUCCESSFULLY" ∧
    (Phase9.learn_fact (Phase9.learn_fact [] "germany" "capital" "Berlin" "user" 0).2
        "germany" "capital" "Bonn" "user" 1).1 ≠ "UPDATED_BELIEF" ∧
    Phase9.query_facts
        (Phase9.learn_fact (Phase9.learn_fact [] "germany" "capital" "Berlin" "user" 0).2
          "germany" "capital" "Bonn" "user" 1).2 "germany" "capital" = ["Berlin", "Bonn"] := by
  decide

/-- C1 (amended): in the phase-10 store, when a record for the (singular)
key exists and is mutable, learn_fact replaces it — the new table holds
exactly one record for the key, carrying the new fact, source and timestamp —
and returns the outcome UPDATED_BELIEF. -/
theorem phase10_singular_mutable_updates (db : List Record) (s r f src : String)
    (now : Nat) (rec0 : Record) (tl : List Record)
    (hsing : Phase10.singular_relationships.contains (lower r) = true)
    (hex : db.filter (keyMatches (lower s) (lower r)) = rec0 :: tl)
    (hmut : rec0.is_immutable = false) :
    Phase10.learn_fact db s r f src now =
      ("UPDATED_BELIEF",
        (db.filter (fun rec => !(keyMatches (lower s) (lower r) rec))) ++
          [{ subject := lower s, relationship := lower r, fact := f,
             is_immutable := false, source := src, timestamp := now }]) ∧
    (Phase10.learn_fact db s r f src now).2.filter (keyMatches (lower s) (lower r)) =
      [{ subject := lower s, relationship := lower r, fact := f,
         is_immutable := false, source := src, timestamp := now }] := by
  have h1 : Phase10.learn_fact db s r f src now =
      ("UPDATED_BELIEF",
        (db.filter (fun rec => !(keyMatches (lower s) (lower r) rec))) ++
          [{ subject := lower s, relationship := lower r, fact := f,
             is_immutable := false, source := src, timestamp := now }]) := by
    simp only [Phase10.learn_fact, hex]
    simp [hmut]
  refine ⟨h1, ?_⟩
  rw [h1]
  rw [List.filter_append, filter_not_filter]
  simp [keyMatches]

/-- C1 witness: a concrete phase-10 store holding one mutable record for
(germany, capital) on which the amended theorem applies. -/
theorem phase10_singular_mutable_updates_witness :
    Phase10.learn_fact
        [{ subject := "germany", relationship := "capital", fact := "Berlin",
           is_immutable := false, source := "user", timestamp := 0 }]
        "germany" "capital" "Bonn" "user" 1 =
      ("UPDATED_BELIEF",
        [{ subject := "germany", relationship := "capital", fact := "Bonn",
           is_immutable := false, source := "user", timestamp := 1 }]) := by
  have h := phase10_singular_mutable_updates
    [{ subject := "germany", relationship := "capital", fact := "Berlin",
       is_immutable := false, source := "user", timestamp := 0 }]
    "germany" "capital" "Bonn" "user" 1
    { subject := "germany", relationship := "capital", fact := "Berlin",
      is_immutable := false, source := "user", timestamp := 0 } []
    (by decide) (by decide) (by decide)
  rw [h.1]
  decide

/-- C2: in both store variants, learning a different fact against an
existing immutable record for a singular key returns CONFLICT_WITH_CONSTANT
and leaves the table unchanged, so a subsequent query returns exactly what it
returned before the call. -/
theorem learn_conflict_preserves_store (db9 db10 : List Record) (s r f src : String)
    (now : Nat) (rec9 rec10 : Record) (tl9 tl10 : List Record)
    (hsing : Phase9.singular_relationships.contains (lower r) = true)
    (hex9 : db9.filter (keyMatches (lower s) (lower r)) = rec9 :: tl9)
    (himm9 : rec9.is_immutable = true)
    (hdiff : lower f ≠ lower rec9.fact)
    (hex10 : db10.filter (keyMatches (lower s) (lower r)) = rec10 :: tl10)
    (himm10 : rec10.is_immutable = true) :
    Phase9.learn_fact db9 s r f src now = ("CONFLICT_WITH_CONSTANT", db9) ∧
    Phase10.learn_fact db10 s r f src now = ("CONFLICT_WITH_CONSTANT", db10) ∧
    Phase9.query_facts (Phase9.learn_fact db9 s r f src now).2 s r =
      Phase9.query_facts db9 s r ∧
    Phase10.query_facts (Phase10.learn_fact db10 s r f src now).2 s r =
      Phase10.query_facts db10 s r := by
  have hmem : lower r ∈ Phase9.singular_relationships := by
    simpa using hsing
  have h9 : Phase9.learn_fact db9 s r f src now = ("CONFLICT_WITH_CONSTANT", db9) := by
    simp only [Phase9.learn_fact, hex9]
    simp [hmem, himm9]
  have h10 : Phase10.learn_fact db10 s r f src now = ("CONFLICT_WITH_CONSTANT", db10) := by
    simp only [Phase10.learn_fact, hex10]
    simp [himm10]
  exact ⟨h9, h10, by rw [h9], by rw [h10]⟩

/-- C2 witness: the seeded stores of both engines hold the immutable record
(ball, shape, round); learning square for that key conflicts, leaves both
stores untouched, and the query still returns only round. -/
theorem learn_conflict_preserves_store_witness :
    Phase9.learn_fact Phase9.initialDB "ball" "shape" "square" "user" 1 =
      ("CONFLICT_WITH_CONSTANT", Phase9.initialDB) ∧
    Phase10.learn_fact Phase10.initialDB "ball" "shape" "square" "user" 1 =
      ("CONFLICT_WITH_CONSTANT", Phase10.initialDB) ∧
    Phase9.query_facts
        (Phase9.learn_fact Phase9.initialDB "ball" "shape" "square" "user" 1).2
        "ball" "shape" = ["round"] := by
  have h := learn_conflict_preserves_store Phase9.initialDB Phase10.initialDB
    "ball" "shape" "square" "user" 1
    { subject := "ball", relationship := "shape", fact := "round",
      is_immutable := true, source := "System_Constant", timestamp := 0 }
    { subject := "ball", relationship := "shape", fact := "round",
      is_immutable := true, source := "System_Constant", timestamp := 0 }
    [] []
    (by decide) (by decide) (by decide) (by decide) (by decide) (by decide)
  refine ⟨h.1, h.2.1, ?_⟩
  rw [h.1]
  decide

/-- C3 counterexample: with (ball, shape, round) seeded immutable, the
Response Decider of sclm_final_interactive.py handles the declarative-fact
thought for (ball, shape, square) while the store reports
CONFLICT_WITH_CONSTANT, yet its reply claims the fact was learned and never
states the existing value round. -/
theorem final_conflict_reply_omits_existing :
    Phase9.learn_fact Phase9.initialDB "ball" "shape" "square" "user" 1 =
      ("CONFLICT_WITH_CONSTANT", Phase9.initialDB) ∧
    (FinalInteractive.generate_response tBallSquare Phase9.initialDB 1).1 =
      "Okay, I've learned that the shape of ball is square." ∧
    strContains (FinalInteractive.generate_response tBallSquare Phase9.initialDB 1).1
      "round" = false := by
  decide

/-- C3 (amended): the phase-10 Response Decider does implement the claimed
behaviour: on CONFLICT_WITH_CONSTANT it queries the existing value(s) and
renders them through format_list inside the reply. -/
theorem phase10_conflict_reply_reports_existing (t : Thought) (kb : List Record)
    (now : Nat) (s r f : String)
    (hm : t.mood = "declarative_fact")
    (hl : t.learning_fact = some (s, r, f))
    (hc : Phase10.learn_fact kb s r f "user" now = ("CONFLICT_WITH_CONSTANT", kb)) :
    Phase10.generate_response t kb now =
      ("That's interesting, but my understanding is that the " ++ r ++ " of " ++ s ++
        " is " ++ Phase10.format_list (Phase10.query_facts kb s r) ++ ".", kb) := by
  simp only [Phase10.generate_response, hl, hm, hc]
  simp

/-- C3 witness: on the seeded phase-10 store, the (ball, shape, square) turn
produces a reply stating the existing value round. -/
theorem phase10_conflict_reply_reports_existing_witness :
    Phase10.generate_response tBallSquare Phase10.initialDB 1 =
      ("That's interesting, but my understanding is that the shape of ball is round.",
        Phase10.initialDB) ∧
    strContains (Phase10.generate_response tBallSquare Phase10.initialDB 1).1
      "round" = true := by
  have h := phase10_conflict_reply_reports_existing tBallSquare Phase10.initialDB 1
    "ball" "shape" "square" rfl rfl (by decide)
  rw [h]
  refine ⟨?_, by decide⟩
  decide

/-- C4 counterexample: in the phase-10 store, has_part is a plural
relationship (it is not in the singular set), yet the second of two distinct
facts learned for (car, has_part) is not a second LEARNED outcome: it
returns UPDATED_BELIEF and replaces the first fact, so the query afterwards
returns only the second fact. -/
theorem phase10_plural_second_learn_replaces :
    Phase10.singular_relationships.contains "has_part" = false ∧
    (Phase10.learn_fact Phase10.initialDB "car" "has_part" "engine" "user" 1).1 =
      "LEARNED_SUCCESSFULLY" ∧
    (Phase10.learn_fact
        (Phase10.learn_fact Phase10.initialDB "car" "has_part" "engine" "user" 1).2
        "car" "has_part" "wheel" "user" 2).1 = "UPDATED_BELIEF" ∧
    (Phase10.learn_fact
        (Phase10.learn_fact Phase10.initialDB "car" "has_part" "engine" "user" 1).2
        "car" "has_part" "wheel" "user" 2).1 ≠ "LEARNED_SUCCESSFULLY" ∧
    Phase10.query_facts
        (Phase10.learn_fact
          (Phase10.learn_fact Phase10.initialDB "car" "has_part" "engine" "user" 1).2
          "car" "has_part" "wheel" "user" 2).2 "car" "has_part" = ["wheel"] := by
  decide

/-- C4 (amended): in the phase-9 store, learning two case-distinct facts for
a plural key with no prior records yields LEARNED_SUCCESSFULLY both times,
and the query — matching both key parts case-insensitively — returns both
facts in insertion order; a query that matches nothing returns the empty
list. -/
theorem phase9_plural_distinct_facts_both_learned (db : List Record)
    (s r f1 f2 src1 src2 s2 r2 : String) (n1 n2 : Nat)
    (hplural : Phase9.singular_relationships.contains (lower r) = false)
    (hempty : db.filter (keyMatches (lower s) (lower r)) = [])
    (hdiff : lower f2 ≠ lower f1)
    (hs2 : lower s2 = lower s)
    (hr2 : lower r2 = lower r) :
    (Phase9.learn_fact db s r f1 src1 n1).1 = "LEARNED_SUCCESSFULLY" ∧
    (Phase9.learn_fact (Phase9.learn_fact db s r f1 src1 n1).2 s2 r2 f2 src2 n2).1 =
      "LEARNED_SUCCESSFULLY" ∧
    Phase9.query_facts
        (Phase9.learn_fact (Phase9.learn_fact db s r f1 src1 n1).2 s2 r2 f2 src2 n2).2
        s2 r2 = [f1, f2] ∧
    Phase9.query_facts db s2 r2 = [] := by
  have h1 := learn9_eq_of_no_existing db s r f1 src1 n1 hempty
  have hfil2 : (Phase9.learn_fact db s r f1 src1 n1).2.filter
      (keyMatches (lower s2) (lower r2)) =
      [{ subject := lower s, relationship := lower r, fact := f1,
         is_immutable := false, source := src1, timestamp := n1 }] := by
    rw [h1, hs2, hr2]
    simp only [List.filter_append, hempty]
    simp [keyMatches]
  have h2 := learn9_eq_of_single_mutable_new (Phase9.learn_fact db s r f1 src1 n1).2
    s2 r2 f2 src2 n2
    { subject := lower s, relationship := lower r, fact := f1,
      is_immutable := false, source := src1, timestamp := n1 }
    hfil2 rfl (by simpa using hdiff)
  refine ⟨by rw [h1], by rw [h2], ?_, ?_⟩
  · rw [h2]
    simp only [Phase9.query_facts, List.filter_append, hfil2]
    simp [keyMatches, hs2, hr2]
  · simp only [Phase9.query_facts, hs2, hr2, hempty]
    rfl

/-- C4 witness: two distinct colors learned for (sky, color) on an empty
phase-9 store. -/
theorem phase9_plural_distinct_facts_both_learned_witness :
    (Phase9.learn_fact [] "sky" "color" "Blue" "user" 0).1 = "LEARNED_SUCCESSFULLY" ∧
    (Phase9.learn_fact (Phase9.learn_fact [] "sky" "color" "Blue" "user" 0).2
        "SKY" "Color" "Red" "user" 1).1 = "LEARNED_SUCCESSFULLY" ∧
    Phase9.query_facts
        (Phase9.learn_fact (Phase9.learn_fact [] "sky" "color" "Blue" "user" 0).2
          "SKY" "Color" "Red" "user" 1).2 "SKY" "Color" = ["Blue", "Red"] := by
  have h := phase9_plural_distinct_facts_both_learned [] "sky" "color" "Blue" "Red"
    "user" "user" "SKY" "Color" 0 1
    (by decide) (by decide) (by decide) (by decide) (by decide)
  exact ⟨h.1, h.2.1, h.2.2.1⟩

/-- C5: in the phase-9 store, learning the same fact twice for a plural key
(the fact compared case-insensitively) yields LEARNED_SUCCESSFULLY then
ALREADY_KNOWN, the second call leaves the table unchanged, and the query
returns exactly one occurrence of the fact, in its original casing. -/
theorem phase9_plural_relearn_already_known (db : List Record)
    (s r f1 f2 src1 src2 s2 r2 : String) (n1 n2 : Nat)
    (hplural : Phase9.singular_relationships.contains (lower r) = false)
    (hempty : db.filter (keyMatches (lower s) (lower r)) = [])
    (hsame : lower f2 = lower f1)
    (hs2 : lower s2 = lower s)
    (hr2 : lower r2 = lower r) :
    (Phase9.learn_fact db s r f1 src1 n1).1 = "LEARNED_SUCCESSFULLY" ∧
    Phase9.learn_fact (Phase9.learn_fact db s r f1 src1 n1).2 s2 r2 f2 src2 n2 =
      ("ALREADY_KNOWN", (Phase9.learn_fact db s r f1 src1 n1).2) ∧
    Phase9.query_facts (Phase9.learn_fact db s r f1 src1 n1).2 s2 r2 = [f1] := by
  have h1 := learn9_eq_of_no_existing db s r f1 src1 n1 hempty
  have hfil2 : (Phase9.learn_fact db s r f1 src1 n1).2.filter
      (keyMatches (lower s2) (lower r2)) =
      [{ subject := lower s, relationship := lower r, fact := f1,
         is_immutable := false, source := src1, timestamp := n1 }] := by
    rw [h1, hs2, hr2]
    simp only [List.filter_append, hempty]
    simp [keyMatches]
  have h2 := learn9_already_known_of_match (Phase9.learn_fact db s r f1 src1 n1).2
    s2 r2 f2 src2 n2
    { subject := lower s, relationship := lower r, fact := f1,
      is_immutable := false, source := src1, timestamp := n1 }
    hfil2 rfl (by simpa using hsame)
  refine ⟨by rw [h1], h2, ?_⟩
  simp only [Phase9.query_facts, hfil2]
  rfl

/-- C5 witness: learning Blue then blue for (sky, color) on an empty
phase-9 store. -/
theorem phase9_plural_relearn_already_known_witness :
    (Phase9.learn_fact [] "sky" "color" "Blue" "user" 0).1 = "LEARNED_SUCCESSFULLY" ∧
    Phase9.learn_fact (Phase9.learn_fact [] "sky" "color" "Blue" "user" 0).2
        "Sky" "Color" "blue" "user" 1 =
      ("ALREADY_KNOWN", (Phase9.learn_fact [] "sky" "color" "Blue" "user" 0).2) ∧
    Phase9.query_facts (Phase9.learn_fact [] "sky" "color" "Blue" "user" 0).2
      "Sky" "Color" = ["Blue"] := by
  exact phase9_plural_relearn_already_known [] "sky" "color" "Blue" "blue"
    "user" "user" "Sky" "Color" 0 1
    (by decide) (by decide) (by decide) (by decide) (by decide)

/-- C6 counterexample: when the response stage of the orchestrator of
sclm_final_interactive.py fails, the error propagates to the caller — no
fallback reply is produced — and the enriched thought has nonetheless been
appended to the conversation history, because the append precedes the
Response Decider call in the method body. -/
theorem handle_message_failure_appends_history :
    (handle_message parseHello respondFail { history := [], kb := [] } "hello").1 =
      Except.error "StoreUnavailable" ∧
    (handle_message parseHello respondFail { history := [], kb := [] } "hello").2.history.length = 1 := by
  exact ⟨rfl, rfl⟩

/-- C6 (amended): the orchestrator runs Context Resolver, Nuance Enricher and
Tone Enricher in that fixed order, appends the enriched thought to history,
and then runs the Response Decider: the history always gains the thought, a
decider error propagates unchanged (there is no fallback reply and the store
keeps its prior state), and a decider success returns the reply with the
updated store. -/
theorem handle_message_order_and_failure (parse : String → Thought)
    (respond : Thought → List Record → Except String (String × List Record))
    (st : DMState) (msg : String) :
    (handle_message parse respond st msg).2.history =
      st.history ++ [tone_analyze (nuance_analyze (resolve_context st.history (parse msg)))] ∧
    (∀ e,
      respond (tone_analyze (nuance_analyze (resolve_context st.history (parse msg)))) st.kb =
        Except.error e →
      handle_message parse respond st msg =
        (Except.error e,
          { history := st.history ++
              [tone_analyze (nuance_analyze (resolve_context st.history (parse msg)))],
            kb := st.kb })) ∧
    (∀ rep kb2,
      respond (tone_analyze (nuance_analyze (resolve_context st.history (parse msg)))) st.kb =
        Except.ok (rep, kb2) →
      handle_message parse respond st msg =
        (Except.ok rep,
          { history := st.history ++
              [tone_analyze (nuance_analyze (resolve_context st.history (parse msg)))],
            kb := kb2 })) := by
  refine ⟨?_, ?_, ?_⟩
  · cases hr : respond (tone_analyze (nuance_analyze (resolve_context st.history (parse msg)))) st.kb with
    | ok v =>
      obtain ⟨rep, kb2⟩ := v
      simp only [handle_message, hr]
    | error e =>
      simp only [handle_message, hr]
  · intro e he
    simp only [handle_message, he]
  · intro rep kb2 hok
    simp only [handle_message, hok]

/-- C6 witness: a concrete failing turn on an empty history: the result is
the propagated store error and the history of one appended thought. -/
theorem handle_message_order_and_failure_witness :
    handle_message parseHello respondFail { history := [], kb := [] } "hi" =
      (Except.error "StoreUnavailable",
        { history := [tone_analyze (nuance_analyze (resolve_context [] (parseHello "hi")))],
          kb := [] }) := by
  have h := (handle_message_order_and_failure parseHello respondFail
    { history := [], kb := [] } "hi").2.1 "StoreUnavailable" rfl
  simpa using h

/-- C7: context resolution substitutes the agent of a current-turn thought
whose agent is the pronoun it exactly as claimed: with a non-empty history it
uses the last entry's object if present (truthy), else that entry's agent;
with a non-it agent, an empty history, or a last entry offering no truthy
antecedent, the thought is returned unchanged; and only the last history
entry is ever consulted. -/
theorem resolve_context_spec (hist : List Thought) (t : Thought) :
    (∀ last, hist.getLast? = some last → is_agent_it t = true →
      ((truthyOpt last.object = true →
        resolve_context hist t = { t with agent := last.object }) ∧
       (truthyOpt last.object = false → truthyOpt last.agent = true →
        resolve_context hist t = { t with agent := last.agent }) ∧
       (truthyOpt last.object = false → truthyOpt last.agent = false →
        resolve_context hist t = t))) ∧
    (is_agent_it t = false → resolve_context hist t = t) ∧
    (hist = [] → resolve_context hist t = t) ∧
    (∀ hist2, hist2.getLast? = hist.getLast? →
      resolve_context hist2 t = resolve_context hist t) := by
  refine ⟨?_, ?_, ?_, ?_⟩
  · intro last hlast hit
    refine ⟨?_, ?_, ?_⟩
    · intro h1
      simp only [resolve_context, hit, hlast, h1]
      simp [h1]
    · intro h1 h2
      simp only [resolve_context, hit, hlast, h1]
      simp [h1, h2]
    · intro h1 h2
      simp only [resolve_context, hit, hlast, h1]
      simp [h1, h2]
  · intro h
    simp [resolve_context, h]
  · intro h
    subst h
    simp [resolve_context]
  · intro hist2 he
    simp only [resolve_context, he]

/-- C7 witness: the agent It of the current thought resolves to the previous
turn's object, the ball. -/
theorem resolve_context_spec_witness :
    resolve_context [tThrewBall] tItFast = { tItFast with agent := some "the ball" } := by
  have h := ((resolve_context_spec [tThrewBall] tItFast).1 tThrewBall rfl (by decide)).1 (by decide)
  exact h

/-- Helper: the tone field after enrichment is the two-valued conditional of
the source rule. -/
theorem tone_analyze_tone_eq (t : Thought) :
    (tone_analyze t).tone =
      if ((sarcastic_positives.any fun w => strContains (lower t.input_sentence) w) &&
          (match t.action with
            | some a => negative_context_verbs.contains a
            | none => false)) = true
      then "sarcastic" else "neutral" := by
  simp only [tone_analyze]
  by_cases h : ((sarcastic_positives.any fun w => strContains (lower t.input_sentence) w) &&
      (match t.action with
        | some a => negative_context_verbs.contains a
        | none => false)) = true
  · rw [if_pos h, if_pos h]
  · rw [if_neg h, if_neg h]

/-- Helper: the Boolean sarcasm condition holds exactly when some positive
word occurs in the lowercased sentence and the action verb is in the
negative-context set. -/
theorem tone_cond_iff (t : Thought) :
    ((sarcastic_positives.any fun w => strContains (lower t.input_sentence) w) &&
      (match t.action with
        | some a => negative_context_verbs.contains a
        | none => false)) = true ↔
      ((∃ w ∈ sarcastic_positives, strContains (lower t.input_sentence) w = true) ∧
        (∃ a, t.action = some a ∧ a ∈ negative_context_verbs)) := by
  rw [Bool.and_eq_true]
  apply and_congr
  · exact List.any_eq_true
  · cases ha : t.action with
    | none => simp
    | some a => simp [List.elem_iff]

/-- C8: after tone enrichment the tone is sarcastic exactly when the
lowercased input contains a word of the positive-sentiment lexicon and the
action is one of the negative-context verbs, and neutral otherwise; in
particular the dropped-it example is sarcastic and the won-the-race example
is neutral. -/
theorem tone_sarcastic_iff (t : Thought) :
    ((tone_analyze t).tone = "sarcastic" ↔
      ((∃ w ∈ sarcastic_positives, strContains (lower t.input_sentence) w = true) ∧
        (∃ a, t.action = some a ∧ a ∈ negative_context_verbs))) ∧
    ((tone_analyze t).tone = "sarcastic" ∨ (tone_analyze t).tone = "neutral") ∧
    (tone_analyze tGreatDrop).tone = "sarcastic" ∧
    (tone_analyze tGreatWin).tone = "neutral" := by
  refine ⟨?_, ?_, by decide, by decide⟩
  · rw [tone_analyze_tone_eq, ← tone_cond_iff t]
    by_cases h : ((sarcastic_positives.any fun w => strContains (lower t.input_sentence) w) &&
        (match t.action with
          | some a => negative_context_verbs.contains a
          | none => false)) = true
    · rw [if_pos h]
      exact iff_of_true rfl h
    · rw [if_neg h]
      exact iff_of_false (by decide) h
  · rw [tone_analyze_tone_eq]
    by_cases h : ((sarcastic_positives.any fun w => strContains (lower t.input_sentence) w) &&
        (match t.action with
          | some a => negative_context_verbs.contains a
          | none => false)) = true
    · rw [if_pos h]
      exact Or.inl rfl
    · rw [if_neg h]
      exact Or.inr rfl

/-- C9: the phase-9 learn_fact always returns one of the three non-empty
outcome strings, so in the final ResponseEngine — which branches on the
truthiness of that string — the failure branch is unreachable and every
declarative-fact turn is answered with the learned-successfully reply,
including conflicts with immutable constants. -/
theorem learn_outcomes_and_final_reply :
    (∀ (db : List Record) (s r f src : String) (now : Nat),
      ((Phase9.learn_fact db s r f src now).1 = "CONFLICT_WITH_CONSTANT" ∨
       (Phase9.learn_fact db s r f src now).1 = "ALREADY_KNOWN" ∨
       (Phase9.learn_fact db s r f src now).1 = "LEARNED_SUCCESSFULLY") ∧
      (Phase9.learn_fact db s r f src now).1 ≠ "") ∧
    (∀ (t : Thought) (kb : List Record) (now : Nat) (s r f : String),
      t.mood = "declarative_fact" → t.learning_fact = some (s, r, f) →
      (FinalInteractive.generate_response t kb now).1 =
        "Okay, I've learned that the " ++ r ++ " of " ++ s ++ " is " ++ f ++ ".") := by
  have hne : ∀ (db : List Record) (s r f src : String) (now : Nat),
      (Phase9.learn_fact db s r f src now).1 ≠ "" := by
    intro db s r f src now
    rcases learn9_outcome_cases db s r f src now with h | h | h <;> rw [h] <;> decide
  refine ⟨fun db s r f src now => ⟨learn9_outcome_cases db s r f src now, hne db s r f src now⟩, ?_⟩
  intro t kb now s r f hm hl
  have hbeq : ((Phase9.learn_fact kb s r f "user" now).1 == "") = false :=
    beq_eq_false_iff_ne.mpr (hne kb s r f "user" now)
  simp only [FinalInteractive.generate_response, hl, hm, hbeq]
  simp

/-- C9 witness: on the empty store the learn succeeds and the reply is the
learned-successfully message. -/
theorem learn_outcomes_and_final_reply_witness :
    (FinalInteractive.generate_response tBallSquare [] 3).1 =
      "Okay, I've learned that the shape of ball is square." :=
  learn_outcomes_and_final_reply.2 tBallSquare [] 3 "ball" "shape" "square" rfl rfl

/-- C10 counterexample: a learn that hits an immutable constant stores
nothing, so the learn-then-query round trip does not return the fact that was
given: after learn (ball, shape, square) the query for (ball, shape) returns
only round, and square is not in the result. -/
theorem conflict_roundtrip_loses_fact :
    (Phase9.learn_fact Phase9.initialDB "ball" "shape" "square" "user" 2).1 =
      "CONFLICT_WITH_CONSTANT" ∧
    Phase9.query_facts
        (Phase9.learn_fact Phase9.initialDB "ball" "shape" "square" "user" 2).2
        "ball" "shape" = ["round"] ∧
    ¬ ("square" ∈ Phase9.query_facts
        (Phase9.learn_fact Phase9.initialDB "ball" "shape" "square" "user" 2).2
        "ball" "shape") := by
  decide

/-- C10 (amended): whenever the phase-9 learn_fact reports
LEARNED_SUCCESSFULLY, the new row carries the lowercased subject and
relationship but the fact verbatim, and a query whose key parts agree up to
case returns a list containing the fact character for character. -/
theorem learn_success_roundtrip_preserves_fact (db : List Record)
    (s r f src s2 r2 : String) (now : Nat)
    (hs2 : lower s2 = lower s) (hr2 : lower r2 = lower r)
    (hres : (Phase9.learn_fact db s r f src now).1 = "LEARNED_SUCCESSFULLY") :
    (Phase9.learn_fact db s r f src now).2 =
      db ++ [{ subject := lower s, relationship := lower r, fact := f,
               is_immutable := false, source := src, timestamp := now }] ∧
    f ∈ Phase9.query_facts (Phase9.learn_fact db s r f src now).2 s2 r2 := by
  rcases learn9_result_spec db s r f src now with h | h | h
  · rw [h] at hres
    have hc : ¬ ("CONFLICT_WITH_CONSTANT" : String) = "LEARNED_SUCCESSFULLY" := by decide
    exact absurd hres hc
  · rw [h] at hres
    have hc : ¬ ("ALREADY_KNOWN" : String) = "LEARNED_SUCCESSFULLY" := by decide
    exact absurd hres hc
  · refine ⟨by rw [h], ?_⟩
    rw [h]
    simp only [Phase9.query_facts, hs2, hr2, List.filter_append]
    simp [keyMatches]

/-- C10 witness: learning Blue for (sky, color) and querying with different
casing returns Blue verbatim. -/
theorem learn_success_roundtrip_preserves_fact_witness :
    (Phase9.learn_fact [] "sky" "color" "Blue" "user" 0).2 =
      [{ subject := "sky", relationship := "color", fact := "Blue",
         is_immutable := false, source := "user", timestamp := 0 }] ∧
    "Blue" ∈ Phase9.query_facts (Phase9.learn_fact [] "sky" "color" "Blue" "user" 0).2
      "SKY" "COLOR" := by
  have h := learn_success_roundtrip_preserves_fact [] "sky" "color" "Blue" "user"
    "SKY" "COLOR" 0 (by decide) (by decide) (by decide)
  exact ⟨by rw [h.1]; decide, h.2⟩

end SCLM
